import Mathlib

set_option maxHeartbeats 1000000

/-!
Verification development for `src/app/Helpers/DatatableBuilder.ts`
(`QueryBuilder`: a dialect-aware SQL statement generator and result
translator for DataTables-style server-side processing).

The TypeScript source is dynamically typed, so the embedding works over a
JavaScript-like value universe `JSVal`.  Modelling choices (each noted at
its definition):
* JS numbers are modelled as integers (`Int`) plus a separate `nan`
  constructor; the numeric strings exercised by the code are integer
  literals.  For the one place the source compares an arbitrary value
  against `0` (`requestQuery.length < 0`), string-to-number conversion is
  modelled over exact rationals, covering decimal fractions, exponents and
  the non-decimal integer literal forms of the ECMAScript grammar.
* `Date` objects carry their ISO-8601 rendering (`toISOString`) as a
  string; nothing else of a Date is observable in this code.
* Exceptions (`TypeError` on property access of `null`/`undefined`, or on
  calling `toISOString` of a non-Date) are modelled with `Except String`.
* Object keys are assumed distinct, as they are for JS object literals.
-/

namespace Datatable

/-- JavaScript-like runtime values, as used by `DatatableBuilder.ts`. -/
inductive JSVal where
| undefined
| null
| bool (b : Bool)
| num (n : Int)
| nan
| str (s : String)
| date (iso : String)
| arr (elems : List JSVal)
| obj (fields : List (String × JSVal))
deriving Repr

/-- JS `typeof` on the modelled universe (note `typeof null = "object"`). -/
def jsTypeof : JSVal → String
| .undefined => "undefined"
| .null => "object"
| .bool _ => "boolean"
| .num _ => "number"
| .nan => "number"
| .str _ => "string"
| .date _ => "object"
| .arr _ => "object"
| .obj _ => "object"

/-- JS truthiness. -/
def truthy : JSVal → Bool
| .undefined => false
| .null => false
| .bool b => b
| .num n => n != 0
| .nan => false
| .str s => s ≠ ""
| .date _ => true
| .arr _ => true
| .obj _ => true

/-- Strict equality (`===`) of a value with a string literal. -/
def isStrEq (v : JSVal) (s : String) : Bool :=
  match v with
  | .str t => t == s
  | _ => false

/-- Is the value `undefined`? (for `!== undefined` tests). -/
def isUndefinedV : JSVal → Bool
| .undefined => true
| _ => false

/-- lodash `_.isObject`: true for objects, arrays and dates, false for
`null` and all primitives. -/
def isObjectJS : JSVal → Bool
| .arr _ => true
| .obj _ => true
| .date _ => true
| _ => false

/-- lodash `_.isArray`. -/
def isArrayJS : JSVal → Bool
| .arr _ => true
| _ => false

/-- lodash `_.isEmpty` (only ever applied after an `isArray` check in the
source, but defined on the whole universe). -/
def isEmptyJS : JSVal → Bool
| .arr xs => xs.isEmpty
| .obj fs => fs.isEmpty
| .str s => s.isEmpty
| _ => true

mutual

/-- JS `ToString` on the modelled universe.  `Date`-to-string is
environment dependent in JS (locale rendering); the ISO text stands in for
it here — no claim exercises that corner. -/
def toStringJS : JSVal → String
| .undefined => "undefined"
| .null => "null"
| .bool b => if b then "true" else "false"
| .num n => toString n
| .nan => "NaN"
| .str s => s
| .date iso => iso
| .obj _ => "[object Object]"
| .arr xs => arrJoin xs

/-- `Array.prototype.toString`: elements joined with `,`, where `null` and
`undefined` elements render as the empty string. -/
def arrJoin : List JSVal → String
| [] => ""
| v :: rest =>
  (match v with
   | .undefined => ""
   | .null => ""
   | w => toStringJS w)
  ++ (match rest with | [] => "" | _ => ",") ++ arrJoin rest

end

/-- Is the string a canonical array-index key (`"0"`, `"1"`, ..., no
leading zeros)? -/
def toArrayIndex (k : String) : Option Nat :=
  if k.data ≠ [] ∧ k.data.all Char.isDigit ∧ (k = "0" ∨ k.data.headD '0' ≠ '0') then
    some (k.data.foldl (fun a c => a * 10 + (c.toNat - 48)) 0)
  else none

/-- Property lookup on a value already known not to be nullish (JS never
throws there; missing properties read as `undefined`). -/
def getOwn (o : JSVal) (k : String) : JSVal :=
  match o with
  | .str s =>
    if k = "length" then .num s.length
    else match toArrayIndex k with
      | some i => if i < s.length then .str (String.singleton (s.data.getD i ' ')) else .undefined
      | none => .undefined
  | .arr xs =>
    if k = "length" then .num xs.length
    else match toArrayIndex k with
      | some i => xs.getD i .undefined
      | none => .undefined
  | .obj fs => (fs.lookup k).getD .undefined
  | _ => .undefined

/-- Property access `o.k` / `o[k]`: throws a `TypeError` when the receiver
is `null` or `undefined`. -/
def getProp (o : JSVal) (k : String) : Except String JSVal :=
  match o with
  | .undefined => .error ("TypeError: Cannot read properties of undefined (reading " ++ k ++ ")")
  | .null => .error ("TypeError: Cannot read properties of null (reading " ++ k ++ ")")
  | o => .ok (getOwn o k)

/-- Bracket access `o[e]` with an arbitrary key value (the key is
converted to a property name by `ToString`, as JS does). -/
def getPropV (o : JSVal) (k : JSVal) : Except String JSVal :=
  getProp o (toStringJS k)

/-- lodash `_.each` collection view: arrays iterate elements, plain
objects iterate own values, strings iterate characters, everything else
(including nil) iterates nothing. -/
def eachItems : JSVal → List JSVal
| .arr xs => xs
| .obj fs => fs.map (fun f => f.2)
| .str s => s.data.map (fun c => .str (String.singleton c))
| _ => []

/-- lodash `_.values`. -/
def valuesJS : JSVal → List JSVal
| .obj fs => fs.map (fun f => f.2)
| .arr xs => xs
| .str s => s.data.map (fun c => .str (String.singleton c))
| _ => []

/-- lodash `_.keys(x).length`. -/
def keysCount : JSVal → Nat
| .obj fs => fs.length
| .arr xs => xs.length
| .str s => s.length
| _ => 0

/-- JS `a || b` (value-returning or). -/
def jsOr (a b : JSVal) : JSVal :=
  if truthy a then a else b

/-- `Date.prototype.toISOString`; a `TypeError` on anything that is not a
Date. -/
def toISOString : JSVal → Except String String
| .date iso => .ok iso
| _ => .error "TypeError: toISOString is not a function"

/-- ECMAScript `StrWhiteSpace` characters occurring in practice. -/
def isStrWS (c : Char) : Bool :=
  c = ' ' ∨ c = '\t' ∨ c = '\n' ∨ c = '\r' ∨ c = '\x0b' ∨ c = '\x0c'

/-- Value of a list of decimal digit characters. -/
def digitsVal (ds : List Char) : Nat :=
  ds.foldl (fun a c => a * 10 + (c.toNat - 48)) 0

/-- JS `parseInt(v, 10)`: `ToString`, trim leading whitespace, optional
sign, longest decimal-digit prefix; `none` models `NaN`. -/
def parseIntJS (v : JSVal) : Option Int :=
  let cs := (toStringJS v).data.dropWhile isStrWS
  let signed : Int × List Char :=
    match cs with
    | '-' :: r => (-1, r)
    | '+' :: r => (1, r)
    | _ => (1, cs)
  let ds := signed.2.takeWhile Char.isDigit
  if ds.isEmpty then none else some (signed.1 * (digitsVal ds : Int))

/-- JS numbers as needed for the one relational comparison in the source
(`requestQuery.length < 0`): NaN, signed infinities, or an exact rational.
(Exact rationals instead of binary floats: float rounding never changes
the sign of a finite nonzero value, which is all that comparison needs.) -/
inductive JNum where
| nan
| inf (neg : Bool)
| fin (q : Rat)

/-- Exponent part of a decimal literal (the characters after `e`/`E`). -/
def parseExpPart (cs : List Char) : Option Int :=
  match cs with
  | '+' :: ds => if ds ≠ [] ∧ ds.all Char.isDigit then some (digitsVal ds : Int) else none
  | '-' :: ds => if ds ≠ [] ∧ ds.all Char.isDigit then some (-(digitsVal ds : Int)) else none
  | ds => if ds ≠ [] ∧ ds.all Char.isDigit then some (digitsVal ds : Int) else none

/-- Mantissa of an unsigned decimal literal: `Digits [. Digits]` or
`. Digits`; returns its value and the unconsumed rest (the exponent). -/
def parseDecMantissa (cs : List Char) : Option (Rat × List Char) :=
  let intDs := cs.takeWhile Char.isDigit
  let rest := cs.drop intDs.length
  if intDs = [] then
    match rest with
    | '.' :: rest2 =>
      let fracDs := rest2.takeWhile Char.isDigit
      if fracDs = [] then none
      else some ((digitsVal fracDs : Rat) / (10 : Rat) ^ fracDs.length, rest2.drop fracDs.length)
    | _ => none
  else
    match rest with
    | '.' :: rest2 =>
      let fracDs := rest2.takeWhile Char.isDigit
      some ((digitsVal intDs : Rat) + (digitsVal fracDs : Rat) / (10 : Rat) ^ fracDs.length,
            rest2.drop fracDs.length)
    | _ => some ((digitsVal intDs : Rat), rest)

/-- `StrUnsignedDecimalLiteral`: `Infinity` or a decimal mantissa with an
optional exponent. -/
def parseUnsignedNum (cs : List Char) : Option JNum :=
  if cs = "Infinity".data then some (.inf false)
  else match parseDecMantissa cs with
  | none => none
  | some (m, rest) =>
    match rest with
    | [] => some (.fin m)
    | 'e' :: es => (parseExpPart es).map (fun e => JNum.fin (m * (10 : Rat) ^ e))
    | 'E' :: es => (parseExpPart es).map (fun e => JNum.fin (m * (10 : Rat) ^ e))
    | _ => none

/-- `StrDecimalLiteral`: optional sign on an unsigned decimal literal. -/
def signedDec (cs : List Char) : JNum :=
  match cs with
  | '+' :: rest => (parseUnsignedNum rest).getD .nan
  | '-' :: rest =>
    match parseUnsignedNum rest with
    | some (.inf _) => .inf true
    | some (.fin q) => .fin (-q)
    | _ => .nan
  | _ => (parseUnsignedNum cs).getD .nan

/-- Value of digits in a given base (for hex/octal/binary literals). -/
def radixVal (base : Nat) (ds : List Char) : Nat :=
  ds.foldl (fun a c =>
    a * base + (if c.isDigit then c.toNat - 48
                else if 'a' ≤ c ∧ c ≤ 'f' then c.toNat - 87
                else c.toNat - 55)) 0

/-- Is `c` a digit of the given base? -/
def isRadixDigit (base : Nat) (c : Char) : Bool :=
  if base = 16 then c.isDigit ∨ ('a' ≤ c ∧ c ≤ 'f') ∨ ('A' ≤ c ∧ c ≤ 'F')
  else '0' ≤ c ∧ c.toNat < 48 + base

/-- ECMAScript `StringToNumber` (over `JNum`): trim whitespace, empty maps
to `0`, unsigned non-decimal integer literals (`0x`/`0o`/`0b`), otherwise
a signed decimal literal; anything else is NaN. -/
def strToJNum (s : String) : JNum :=
  let cs := ((s.data.dropWhile isStrWS).reverse.dropWhile isStrWS).reverse
  match cs with
  | [] => .fin 0
  | '0' :: x :: rest =>
    if x = 'x' ∨ x = 'X' then
      (if rest ≠ [] ∧ rest.all (isRadixDigit 16) then .fin (radixVal 16 rest : Rat) else .nan)
    else if x = 'o' ∨ x = 'O' then
      (if rest ≠ [] ∧ rest.all (isRadixDigit 8) then .fin (radixVal 8 rest : Rat) else .nan)
    else if x = 'b' ∨ x = 'B' then
      (if rest ≠ [] ∧ rest.all (isRadixDigit 2) then .fin (radixVal 2 rest : Rat) else .nan)
    else signedDec cs
  | _ => signedDec cs

/-- JS `ToNumber`.  Arrays convert via their string rendering; plain
objects render as `"[object Object]"` hence NaN.  A `Date`'s numeric value
(epoch milliseconds) is not carried by the model, so it maps to NaN; no
claim puts a Date where the source compares against `0`. -/
def toJNum : JSVal → JNum
| .undefined => .nan
| .null => .fin 0
| .bool b => .fin (if b then 1 else 0)
| .num n => .fin (n : Rat)
| .nan => .nan
| .str s => strToJNum s
| .date _ => .nan
| .arr xs => strToJNum (toStringJS (.arr xs))
| .obj _ => .nan

/-- The JS comparison `v < 0` (NaN compares false). -/
def jsLtZero (v : JSVal) : Bool :=
  match toJNum v with
  | .fin q => q < 0
  | .inf neg => neg
  | .nan => false

/-- The `this.self` bag built by the `QueryBuilder` constructor.  The
defaults are what `new QueryBuilder(options)` stores when the option is
absent (`aSearchColumns: options.aSearchColumns || []` defaults to an
empty array, every other data field to `undefined`; the method fields of
the bag carry no data and are omitted). -/
structure Self where
  sTableName : JSVal := .undefined
  sCountColumnName : JSVal := .undefined
  sDatabaseOrSchema : JSVal := .undefined
  aSearchColumns : JSVal := .arr []
  sSelectSql : JSVal := .undefined
  sFromSql : JSVal := .undefined
  sWhereAndSql : JSVal := .undefined
  sDateColumnName : JSVal := .undefined
  dateFrom : JSVal := .undefined
  dateTo : JSVal := .undefined
  oRequestQuery : JSVal := .undefined
  dbType : JSVal := .undefined
deriving Repr

/-- `DEFAULT_LIMIT` from the source. -/
def DEFAULT_LIMIT : Int := 100

/-- `buildSetDatabaseOrSchemaStatement` (source lines 47-56). -/
def buildSetDatabaseOrSchemaStatement (self : Self) : JSVal :=
  if truthy self.sDatabaseOrSchema then
    if isStrEq self.dbType "oracle" then
      .str ("ALTER SESSION SET CURRENT_SCHEMA = " ++ toStringJS self.sDatabaseOrSchema)
    else
      .str ("USE " ++ toStringJS self.sDatabaseOrSchema)
  else .undefined

/-- `buildDatePartial` (source lines 62-73).  Note the source's guard is
`this.self.sDateColumnName && this.self.dateFrom || this.self.dateTo`,
which by JS operator precedence parses as
`(sDateColumnName && dateFrom) || dateTo`. -/
def buildDatePart (self : Self) : Except String JSVal := do
  if (truthy self.sDateColumnName && truthy self.dateFrom) || truthy self.dateTo then
    if truthy self.dateFrom && truthy self.dateTo then
      let f ← toISOString self.dateFrom
      let t ← toISOString self.dateTo
      return .str (toStringJS self.sDateColumnName ++ " BETWEEN '" ++ f ++ "' AND '" ++ t ++ "'")
    else if truthy self.dateFrom then
      let f ← toISOString self.dateFrom
      return .str (toStringJS self.sDateColumnName ++ " >= '" ++ f ++ "'")
    else if truthy self.dateTo then
      let t ← toISOString self.dateTo
      return .str (toStringJS self.sDateColumnName ++ " <= '" ++ t ++ "'")
    else
      return .undefined
  else
    return .undefined

/-- `buildILIKESearch` (source lines 160-162). -/
def buildILIKESearch (colName searchVal : String) : String :=
  "CAST(" ++ colName ++ " as text)" ++ " ILIKE '%" ++ searchVal ++ "%'"

/-- `buildLIKESearch` (source lines 170-172). -/
def buildLIKESearch (colName searchVal : String) : String :=
  colName ++ " LIKE '%" ++ searchVal ++ "%'"

/-- One escaped character of `sanitize`'s regex replacement (source lines
335-356): the six control characters map to backslash plus a mnemonic
letter, and quote, double quote, backslash and percent are prefixed with a
backslash. -/
def escapeChar (c : Char) : String :=
  if c = '\x00' then "\\0"
  else if c = '\x08' then "\\b"
  else if c = '\x09' then "\\t"
  else if c = '\x1a' then "\\z"
  else if c = '\n' then "\\n"
  else if c = '\r' then "\\r"
  else if c = '\"' ∨ c = '\'' ∨ c = '\\' ∨ c = '%' then "\\" ++ String.singleton c
  else String.singleton c

/-- `sanitize` (source lines 329-357), at its default length bound
(`len = len || 256`; every call in the file passes a single argument).
The regex `replace` with single-character alternatives is a per-character
rewrite. -/
def sanitize (str : JSVal) : JSVal :=
  if !truthy str || (jsTypeof str == "string" && decide ((toStringJS str).length < 1)) then str
  else if jsTypeof str != "string" || decide ((toStringJS str).length > 256) then .null
  else .str (String.join ((toStringJS str).data.map escapeChar))

/-- `requestQuery.search.value` as read inside `buildSearchArray`'s
callback (global case) and the matching `column.search.value` read. -/
def readSearchValue (root : JSVal) : Except String JSVal := do
  let s ← getProp root "search"
  getProp s "value"

/-- The callback body of `_u.each` inside `buildSearchArray` (source
lines 140-150): returns the predicate to push, if any. -/
def searchEntry (self : Self) (requestQuery : JSVal) (global customColumns : Bool)
    (column : JSVal) : Except String (Option String) := do
  let cond ← if customColumns then pure true else do
    let s ← getProp column "searchable"
    pure (isStrEq s "true")
  if cond then
    let base ← if customColumns then pure column else getProp column "name"
    let colName := sanitize base
    let rawVal ← if global then readSearchValue requestQuery else readSearchValue column
    let searchVal := sanitize rawVal
    if truthy colName && truthy searchVal then
      pure (some (if isStrEq self.dbType "postgres" then
        buildILIKESearch (toStringJS colName) (toStringJS searchVal)
      else
        buildLIKESearch (toStringJS colName) (toStringJS searchVal)))
    else
      pure none
  else
    pure none

/-- `buildSearchArray` (source lines 136-152). -/
def buildSearchArray (self : Self) (requestQuery : JSVal) (global : Bool) :
    Except String (List String) := do
  let customColumns := isArrayJS self.aSearchColumns && !isEmptyJS self.aSearchColumns && global
  let coll ← if customColumns then pure self.aSearchColumns else getProp requestQuery "columns"
  (eachItems coll).foldlM (fun acc column => do
    match ← searchEntry self requestQuery global customColumns column with
    | some s => pure (acc ++ [s])
    | none => pure acc) []

/-- `buildSearchPartial` (source lines 117-128). -/
def buildSearchPart (self : Self) (requestQuery : JSVal) : Except String String := do
  let colSearches ← buildSearchArray self requestQuery false
  let globalSearches ← buildSearchArray self requestQuery true
  let searches :=
    (if colSearches.length ≠ 0 then ["(" ++ String.intercalate " AND " colSearches ++ ")"] else [])
    ++ (if globalSearches.length ≠ 0 then ["(" ++ String.intercalate " OR " globalSearches ++ ")"] else [])
  return String.intercalate " AND " searches

/-- `buildWherePartial` (source lines 97-110). -/
def buildWherePart (self : Self) (requestQuery : JSVal) : Except String String := do
  let searchQuery ← buildSearchPart self requestQuery
  let sWheres := (if searchQuery ≠ "" then [searchQuery] else [])
  let sWheres := sWheres ++ (if truthy self.sWhereAndSql then [toStringJS self.sWhereAndSql] else [])
  let dateSql ← buildDatePart self
  let sWheres := sWheres ++ (if truthy dateSql then [toStringJS dateSql] else [])
  if sWheres.length ≠ 0 then
    return " WHERE (" ++ String.intercalate ") AND (" sWheres ++ ")"
  return ""

/-- `buildCountStatement` (source lines 81-89).  The source computes
`buildDatePartial()` into an unused local first; the bind is kept because
it can throw. -/
def buildCountStatement (self : Self) (requestQuery : JSVal) : Except String String := do
  let _dateSql ← buildDatePart self
  let core := "SELECT COUNT("
    ++ (if truthy self.sSelectSql then toStringJS self.sTableName ++ ".id"
        else if truthy self.sCountColumnName then toStringJS self.sCountColumnName else "id")
    ++ ") FROM "
    ++ (if truthy self.sFromSql then toStringJS self.sFromSql else toStringJS self.sTableName)
  let w ← buildWherePart self requestQuery
  return core ++ w

/-- `buildOrderingPartial` (source lines 179-193).  `orderQuery` is the
one-element array `[requestQuery.order[0]]`, so `l = 1` and the loop body
runs exactly once; the single-element `query.join(", ")` collapses. -/
def buildOrderingPart (_self : Self) (requestQuery : JSVal) : Except String String := do
  let ord ← getProp requestQuery "order"
  let o0 ← getPropV ord (.num 0)
  let colIdx ← getProp o0 "column"
  let cols ← getProp requestQuery "columns"
  let column ← getPropV cols colIdx
  let orderable ← getProp column "orderable"
  if isStrEq orderable "true" then
    let name ← getProp column "name"
    if truthy name then
      let dir ← getProp o0 "dir"
      return " ORDER BY " ++ (toStringJS name ++ " " ++ toStringJS dir)
    else
      return ""
  else
    return ""

/-- `buildLimitPartial` (source lines 200-215).  Never throws: the guard
`requestQuery && ...` ensures the receiver of the property reads is
truthy, hence not nullish. -/
def buildLimitPart (self : Self) (requestQuery : JSVal) : String :=
  if truthy requestQuery && !isUndefinedV (getOwn requestQuery "start")
      && !isStrEq self.dbType "oracle" then
    match parseIntJS (getOwn requestQuery "start") with
    | some start =>
      if 0 ≤ start then
        if jsLtZero (getOwn requestQuery "length") then " "
        else
          (if isStrEq self.dbType "postgres" then " OFFSET " ++ toString start ++ " LIMIT "
           else " LIMIT " ++ toString start ++ ", ")
          ++ (match parseIntJS (getOwn requestQuery "length") with
              | some len => if 0 < len then toString len else toString DEFAULT_LIMIT
              | none => toString DEFAULT_LIMIT)
      else ""
    | none => ""
  else ""

/-- `buildSelectPartial` (source lines 221-227). -/
def buildSelectPart (self : Self) : String :=
  "SELECT "
  ++ (if truthy self.sSelectSql then toStringJS self.sSelectSql else "*")
  ++ " FROM "
  ++ (if truthy self.sFromSql then toStringJS self.sFromSql else toStringJS self.sTableName)

/-- The `queries` object assembled by `buildQuery` (the spec's
`StatementSet`); every field is initialised to `null` (source line 235). -/
structure Queries where
  changeDatabaseOrSchema : JSVal := .null
  recordsTotal : JSVal := .null
  recordsFiltered : JSVal := .null
  select : JSVal := .null
deriving Repr

/-- The Oracle ROWNUM wrapping at the end of `buildQuery` (source lines
252-259): applied when `parseInt(length) >= 0 && parseInt(start) >= 0`
(NaN comparisons are false). -/
def oracleWrap (self : Self) (requestQuery : JSVal) (query : String) : String :=
  if isStrEq self.dbType "oracle" then
    match parseIntJS (getOwn requestQuery "length"), parseIntJS (getOwn requestQuery "start") with
    | some len, some start =>
      if 0 ≤ len ∧ 0 ≤ start then
        "SELECT * FROM (SELECT a.*, ROWNUM rnum FROM (" ++ query ++ ") " ++ "a)"
          ++ " WHERE rnum BETWEEN " ++ toString (start + 1) ++ " AND " ++ toString (start + len)
      else query
    | _, _ => query
  else query

/-- The raw global search value read at source line 238:
`_u.isObject(requestQuery.search) ? requestQuery.search.value : ''`. -/
def readGlobalSearchRaw (requestQuery : JSVal) : Except String JSVal := do
  let searchField ← getProp requestQuery "search"
  if isObjectJS searchField then getProp searchField "value" else pure (JSVal.str "")

/-- Source lines 245-247: the filtered count statement is built (by the
same count builder) only when the sanitized global search value is truthy;
otherwise the field keeps its null initialisation. -/
def buildRecordsFiltered (self : Self) (requestQuery searchString : JSVal) :
    Except String JSVal :=
  if truthy searchString then
    (buildCountStatement self requestQuery).map (fun c => JSVal.str c)
  else pure JSVal.null

/-- The body of `buildQuery` after the `typeof` guard (source lines
238-261), evaluated with `self` already updated by line 239
(`this.self.oRequestQuery = requestQuery`); none of the composers read
`oRequestQuery`, and the only statement that can throw before that store
is the `requestQuery.search` read, whose result is unaffected by it. -/
def buildQueriesBody (self : Self) (requestQuery : JSVal) : Except String Queries := do
  let rawSearch ← readGlobalSearchRaw requestQuery
  let searchString := sanitize rawSearch
  let useStmt := buildSetDatabaseOrSchemaStatement self
  let recordsTotal ← buildCountStatement self requestQuery
  let recordsFiltered ← buildRecordsFiltered self requestQuery searchString
  let w ← buildWherePart self requestQuery
  let o ← buildOrderingPart self requestQuery
  let query := buildSelectPart self ++ w ++ o ++ buildLimitPart self requestQuery
  let query := oracleWrap self requestQuery query
  return { changeDatabaseOrSchema := if truthy useStmt then useStmt else .null,
           recordsTotal := .str recordsTotal,
           recordsFiltered := recordsFiltered,
           select := .str query }

/-- `buildQuery` (source lines 234-262).  Returns the updated instance
state together with the statement set; on a thrown `TypeError` the
`Except` carries no state (the model does not track the instance after a
throw). -/
def buildQuery (self : Self) (requestQuery : JSVal) : Except String (Self × Queries) :=
  if jsTypeof requestQuery ≠ "object" then .ok (self, {})
  else
    (buildQueriesBody { self with oRequestQuery := requestQuery } requestQuery).map
      (fun qs => ({ self with oRequestQuery := requestQuery }, qs))

/-- `extractResponseVal` (source lines 295-302): the implicit `undefined`
on fallthrough is returned explicitly. -/
def extractResponseVal (res : JSVal) : JSVal :=
  if isArrayJS res && truthy (getOwn res "length") && isObjectJS (getOwn res "0") then
    let resObj := valuesJS (getOwn res "0")
    if resObj.length ≠ 0 then resObj.headD .undefined else .undefined
  else .undefined

/-- The DataTables reply object built by `parseResponse`. -/
structure DtResponse where
  recordsFiltered : JSVal
  recordsTotal : JSVal
  draw : JSVal
  data : JSVal
deriving Repr

/-- `parseResponse` (source lines 270-288).  The source declares a local
`_queryResult = { recordsFiltered: 0, recordsTotal: 0, select: null }` and
then extracts counts and data from that local, not from the `queryResult`
argument (which is only consulted by the `isObject`/key-count guard).
`parseResponse` performs no nullish property access, so it never throws.
-/
def parseResponse (self : Self) (queryResult : JSVal) : DtResponse :=
  let uQueryResultRecordsFiltered : JSVal := .num 0
  let uQueryResultRecordsTotal : JSVal := .num 0
  let uQueryResultSelect : JSVal := .null
  let oQuery := self.oRequestQuery
  let draw : JSVal :=
    if truthy oQuery && (jsTypeof (getOwn oQuery "draw") == "string") then
      match parseIntJS (getOwn oQuery "draw") with
      | some n => .num n
      | none => .nan
    else .num 0
  if isObjectJS queryResult && decide (keysCount queryResult > 1) then
    let rt := jsOr (extractResponseVal uQueryResultRecordsTotal) (.num 0)
    let rf := if truthy uQueryResultRecordsFiltered then
        jsOr (extractResponseVal uQueryResultRecordsFiltered) (.num 0)
      else rt
    { recordsFiltered := rf, recordsTotal := rt, draw := draw, data := uQueryResultSelect }
  else
    { recordsFiltered := .num 0, recordsTotal := .num 0, draw := draw, data := .null }

/-- Inverting a successful `Except` bind (shared proof helper). -/
theorem bindOk {α β : Type} {x : Except String α} {f : α → Except String β} {b : β}
    (h : x >>= f = .ok b) : ∃ a, x = .ok a ∧ f a = .ok b := by
  cases x with
  | error e => simp [Bind.bind, Except.bind] at h
  | ok a => exact ⟨a, rfl, by simpa [Bind.bind, Except.bind] using h⟩

/-- Inverting a successful `Except.map` (shared proof helper). -/
theorem mapOk {α β : Type} {x : Except String α} {f : α → β} {b : β}
    (h : x.map f = .ok b) : ∃ a, x = .ok a ∧ f a = b := by
  cases x with
  | error e => simp [Except.map] at h
  | ok a => exact ⟨a, rfl, by simpa [Except.map] using h⟩

/-- Builder state for the C1 scenario: a request with `draw: "1"` was
stored by a preceding `buildQuery` call. -/
def c1Self : Self := { oRequestQuery := .obj [("draw", .str "1")] }

/-- Raw statement results of the documented shape: a one-row one-column
unfiltered count (7), a distinct filtered count (3), and the select rows. -/
def c1QueryResult : JSVal := .obj
  [("recordsTotal", .arr [.obj [("count", .num 7)]]),
   ("recordsFiltered", .arr [.obj [("count", .num 3)]]),
   ("select", .arr [.str "row1", .str "row2"])]

/-- C1: the claim says `parseResponse` extracts `recordsTotal` (7),
`recordsFiltered` (3) and the raw rows from its statement-results
argument.  The code instead reads the local zero-initialised
`_queryResult` object, so even though the supplied results are extractable
(last three conjuncts), the response has zero counts and null data: the
function's own doc comment says the argument is parsed, so this is a slip
in the code (`_queryResult` vs `queryResult`). -/
theorem C1_parseResponse_ignores_results :
  parseResponse c1Self c1QueryResult =
      { recordsFiltered := .num 0, recordsTotal := .num 0, draw := .num 1, data := .null }
    ∧ extractResponseVal (getOwn c1QueryResult "recordsTotal") = .num 7
    ∧ extractResponseVal (getOwn c1QueryResult "recordsFiltered") = .num 3
    ∧ getOwn c1QueryResult "select" = .arr [.str "row1", .str "row2"] :=
  ⟨rfl, rfl, rfl, rfl⟩

/-- Builder configuration with `sDateColumnName` unset and only `dateTo`
set. -/
def c4Self : Self :=
  { sTableName := .str "t", dateTo := .date "2020-01-02T00:00:00.000Z" }

/-- C4: the claim (and the source's own field comments, `sDateColumnName
must be set.`) says no date predicate is emitted when `sDateColumnName` is
unset.  Because the guard `sDateColumnName && dateFrom || dateTo` parses
as `(sDateColumnName && dateFrom) || dateTo`, a set `dateTo` alone emits
the nonsense predicate `undefined <= '<iso>'`, which reaches the WHERE
clause. -/
theorem C4_date_predicate_without_dateColumnName :
  truthy c4Self.sDateColumnName = false
    ∧ buildDatePart c4Self = .ok (.str "undefined <= '2020-01-02T00:00:00.000Z'")
    ∧ buildWherePart c4Self (.obj []) =
        .ok " WHERE (undefined <= '2020-01-02T00:00:00.000Z')" :=
  ⟨rfl, rfl, rfl⟩

/-- C2 (counterexample): `null` is not a well-formed object, yet JS
`typeof null` is `"object"`, so a `null` request slips past `buildQuery`'s
guard and the composition path throws a `TypeError` reading
`requestQuery.search` — neither the all-empty `StatementSet` part of the
claim nor its never-throws part holds. -/
theorem C2_null_request_throws :
  jsTypeof JSVal.null = "object"
    ∧ buildQuery {} JSVal.null =
        .error "TypeError: Cannot read properties of null (reading search)" :=
  ⟨rfl, rfl⟩

/-- C2 (amended): `buildQuery` returns the `StatementSet` with all fields
null, without invoking the composers, exactly for request values whose
`typeof` is not `"object"`; a `null` request (or an object request lacking
the fields the composers dereference, such as `order`) instead makes the
composition path throw a `TypeError`. -/
theorem C2_nonobject_request_fail_soft :
  ∀ (self : Self) (requestQuery : JSVal), jsTypeof requestQuery ≠ "object" →
    buildQuery self requestQuery = .ok (self, {}) := by
  intro self rq h
  unfold buildQuery
  rw [if_pos h]

/-- C2 (witness): a numeric request value is rejected by the `typeof`
guard and yields the all-null statement set. -/
theorem C2_nonobject_request_fail_soft_witness :
  buildQuery {} (JSVal.num 5) = .ok ({}, {}) :=
  C2_nonobject_request_fail_soft {} (.num 5) (by decide)

/-- C6 (counterexample): sanitizing a lone line feed yields the
two-character mnemonic escape backslash-`n`, not the claim's "that same
character prefixed with a backslash" (which would be backslash-LF). -/
theorem C6_linefeed_escape :
  sanitize (.str "\n") = .str "\\n"
    ∧ ("\\n" : String) ≠ "\\" ++ "\n" :=
  ⟨rfl, by decide⟩

/-- C6 (amended): `sanitize` returns truthy non-strings as null, falsy
values unchanged, strings longer than 256 characters as null, and rewrites
every other string character by character, where NUL, backspace, tab,
ctrl-Z, LF and CR become backslash followed by the mnemonic letter
(`0 b t z n r`) while double quote, single quote, backslash and percent
are prefixed with a backslash, all other characters unchanged (the
escape table is spelled out in the trailing conjuncts). -/
theorem C6_sanitize_characterization :
  (∀ v : JSVal, truthy v = true → jsTypeof v ≠ "string" → sanitize v = .null)
    ∧ (∀ v : JSVal, truthy v = false → sanitize v = v)
    ∧ (∀ s : String, 256 < s.length → sanitize (.str s) = .null)
    ∧ (∀ s : String, s.length ≤ 256 →
        sanitize (.str s) = .str (String.join (s.data.map escapeChar)))
    ∧ escapeChar '\x00' = "\\0" ∧ escapeChar '\x08' = "\\b"
    ∧ escapeChar '\x09' = "\\t" ∧ escapeChar '\x1a' = "\\z"
    ∧ escapeChar '\n' = "\\n" ∧ escapeChar '\r' = "\\r"
    ∧ escapeChar '\"' = "\\\"" ∧ escapeChar '\'' = "\\'"
    ∧ escapeChar '\\' = "\\\\" ∧ escapeChar '%' = "\\%"
    ∧ (∀ c : Char,
        c ∉ (['\x00', '\x08', '\x09', '\x1a', '\n', '\r', '\"', '\'', '\\', '%'] : List Char) →
        escapeChar c = String.singleton c) := by
  refine ⟨?_, ?_, ?_, ?_, rfl, rfl, rfl, rfl, rfl, rfl, rfl, rfl, rfl, rfl, ?_⟩
  · intro v ht hs
    simp [sanitize, ht, hs]
  · intro v ht
    simp [sanitize, ht]
  · intro s h
    obtain ⟨d⟩ := s
    have hlen : 256 < d.length := by simpa [String.length] using h
    have hne : ({ data := d } : String) ≠ "" := by
      intro he
      have : d = [] := congrArg String.data he
      subst this
      simp at hlen
    simp [sanitize, truthy, jsTypeof, toStringJS, hne, hlen]
    intro he
    simp [he] at hlen
  · intro s h
    obtain ⟨d⟩ := s
    by_cases hd : d = []
    · subst hd
      rfl
    · have hne : ({ data := d } : String) ≠ "" := by
        intro he
        exact hd (congrArg String.data he)
      have hgt : ¬ (256 < d.length) := by
        have := h
        simp only [String.length] at this
        omega
      simp [sanitize, truthy, jsTypeof, toStringJS, hne, hgt]
      intro he
      exact absurd he hd
  · intro c hc
    simp only [List.mem_cons, not_or] at hc
    obtain ⟨h1, h2, h3, h4, h5, h6, h7, h8, h9, h10, -⟩ := hc
    simp [escapeChar, h1, h2, h3, h4, h5, h6, h7, h8, h9, h10]

/-- C6 (witness): the characterization applied at concrete inputs: a
truthy non-string sanitizes to null, and a short string is escaped
per-character. -/
theorem C6_sanitize_characterization_witness :
  sanitize (.num 5) = .null
    ∧ sanitize (.str "a%b") = .str (String.join (("a%b" : String).data.map escapeChar)) :=
  ⟨C6_sanitize_characterization.1 (.num 5) (by decide) (by decide),
   C6_sanitize_characterization.2.2.2.1 "a%b" (by decide)⟩

/-- Builder state whose stored request carries the non-canonical numeric
string `draw: "5abc"`. -/
def c10Self : Self := { oRequestQuery := .obj [("draw", .str "5abc")] }

/-- C10 (counterexample): the claim says the integer cast is applied only
to canonical numeric strings and the echoed draw is 0 otherwise; but for
the stored `draw: "5abc"` the code runs `parseInt` anyway and echoes 5,
not 0. -/
theorem C10_draw_noncanonical :
  (parseResponse c10Self JSVal.null).draw = .num 5
    ∧ JSVal.num 5 ≠ JSVal.num 0 := by
  refine ⟨rfl, ?_⟩
  simp

/-- C10 (amended): `parseResponse` echoes `parseInt(draw, 10)` whenever
the stored request's `draw` is any string (NaN when the string has no
leading integer prefix) and `0` when the stored request is falsy or its
`draw` is not a string; in particular `draw: "5"` echoes 5 and an absent
`draw` echoes 0, but the cast is not restricted to canonical numeric
strings. -/
theorem C10_draw_cast :
  (∀ (self : Self) (queryResult : JSVal),
      (parseResponse self queryResult).draw =
        (if truthy self.oRequestQuery
            && (jsTypeof (getOwn self.oRequestQuery "draw") == "string") then
          match parseIntJS (getOwn self.oRequestQuery "draw") with
          | some n => JSVal.num n
          | none => JSVal.nan
        else JSVal.num 0))
    ∧ (parseResponse { oRequestQuery := .obj [("draw", .str "5")] } .null).draw = .num 5
    ∧ (parseResponse { oRequestQuery := .obj [] } .null).draw = .num 0
    ∧ (parseResponse { oRequestQuery := .obj [("draw", .str "abc")] } .null).draw = .nan := by
  refine ⟨?_, rfl, rfl, rfl⟩
  intro self qr
  unfold parseResponse
  split <;> rfl

/-- Builder configuration whose global-search allow-list is the
constructor default (empty array). -/
def c3Self : Self := { aSearchColumns := .arr [] }

/-- A request with a global search value and one searchable named column
whose own per-column search value is empty. -/
def c3Req : JSVal := .obj
  [("search", .obj [("value", .str "ann")]),
   ("columns", .arr [.obj [("name", .str "name"), ("searchable", .str "true"),
                           ("search", .obj [("value", .str "")])]])]

/-- C3 (counterexample): with an empty allow-list the claim says no global
search group is emitted at all; the code instead falls back to the
request's searchable columns and emits the OR group `(name LIKE '%ann%')`
against the global search value (here it is the entire search portion,
since the column-scoped group is empty). -/
theorem C3_global_group_with_empty_allowlist :
  isEmptyJS c3Self.aSearchColumns = true
    ∧ buildSearchArray c3Self c3Req true = .ok ["name LIKE '%ann%'"]
    ∧ buildSearchPart c3Self c3Req = .ok "(name LIKE '%ann%')" :=
  ⟨rfl, rfl, rfl⟩

/-- The predicate `buildSearchArray` pushes for one allow-listed column
against a (raw) global search value: present exactly when both the
sanitized column and the sanitized value are truthy, `ILIKE`-shaped for
postgres and `LIKE`-shaped otherwise. -/
def allowListPred (self : Self) (col sv : JSVal) : Option String :=
  if truthy (sanitize col) && truthy (sanitize sv) then
    some (if isStrEq self.dbType "postgres" then
            buildILIKESearch (toStringJS (sanitize col)) (toStringJS (sanitize sv))
          else buildLIKESearch (toStringJS (sanitize col)) (toStringJS (sanitize sv)))
  else none

/-- In allow-list mode (`customColumns` true, `global` true) one loop step
of `buildSearchArray` produces exactly `allowListPred`. -/
theorem searchEntry_custom (self : Self) (rq sv : JSVal)
    (h : readSearchValue rq = .ok sv) (col : JSVal) :
    searchEntry self rq true true col = .ok (allowListPred self col sv) := by
  unfold searchEntry allowListPred
  simp [h, Bind.bind, Except.bind, pure, Except.pure]
  split <;> rfl

/-- Shared reduction: binding a successful `Except` computation. -/
theorem okBind {α β : Type} (a : α) (g : α → Except String β) :
    (Except.ok a >>= g : Except String β) = g a := rfl

/-- Shared reduction: binding a `pure` `Except` computation. -/
theorem pureBind {α β : Type} (a : α) (g : α → Except String β) :
    ((pure a : Except String α) >>= g) = g a := rfl

/-- The `_u.each` accumulation of `buildSearchArray` in allow-list mode is
a `filterMap` of `allowListPred` over the allow-list. -/
theorem searchFold_custom (self : Self) (rq sv : JSVal)
    (h : readSearchValue rq = .ok sv) :
    ∀ (cols : List JSVal) (acc : List String),
      List.foldlM (fun acc column => do
          match ← searchEntry self rq true true column with
          | some s => pure (acc ++ [s])
          | none => pure acc) acc cols
        = .ok (acc ++ cols.filterMap (fun col => allowListPred self col sv)) := by
  intro cols
  induction cols with
  | nil =>
    intro acc
    simp [List.foldlM_nil]
    rfl
  | cons c cs ih =>
    intro acc
    rw [List.foldlM_cons]
    simp only [searchEntry_custom self rq sv h c, okBind]
    cases hp : allowListPred self c sv with
    | some s =>
      simp only [hp, pureBind]
      rw [ih (acc ++ [s])]
      simp [List.filterMap_cons, hp]
    | none =>
      simp only [hp, pureBind]
      rw [ih acc]
      simp [List.filterMap_cons, hp]

/-- C3 (amended): when `searchColumns` is a non-empty array and the
request's global search value is readable, the global group's predicates
range over exactly the allow-listed columns (a `filterMap` of
`allowListPred`, dropping columns or values whose sanitization is falsy);
but when `searchColumns` is absent or empty the group is not suppressed —
it is instead built from the request's searchable columns (second
conjunct, with `searchColumns` absent entirely). -/
theorem C3_global_group_source :
  (∀ (self : Self) (requestQuery : JSVal) (cols : List JSVal) (sv : JSVal),
      self.aSearchColumns = .arr cols → cols ≠ [] →
      readSearchValue requestQuery = .ok sv →
      buildSearchArray self requestQuery true =
        .ok (cols.filterMap (fun col => allowListPred self col sv)))
    ∧ buildSearchArray { aSearchColumns := .undefined } c3Req true = .ok ["name LIKE '%ann%'"] := by
  refine ⟨?_, rfl⟩
  intro self rq cols sv harr hne hsv
  have hcc : (isArrayJS self.aSearchColumns && !isEmptyJS self.aSearchColumns && true) = true := by
    simp [harr, isArrayJS, isEmptyJS, hne]
  unfold buildSearchArray
  rw [hcc]
  simp only [if_pos, pureBind, harr, eachItems]
  rw [searchFold_custom self rq sv hsv cols []]
  simp

/-- C3 (witness): the allow-list characterization applied at the spec's
end-to-end configuration (`searchColumns = ["name", "email"]`, global
search value `"ann"`). -/
theorem C3_global_group_source_witness :
  buildSearchArray { dbType := .str "postgres",
                     aSearchColumns := .arr [.str "name", .str "email"] }
      (.obj [("search", .obj [("value", .str "ann")])]) true =
    .ok (([.str "name", .str "email"] : List JSVal).filterMap
      (fun col => allowListPred { dbType := .str "postgres",
                                  aSearchColumns := .arr [.str "name", .str "email"] }
        col (.str "ann"))) :=
  C3_global_group_source.1
    { dbType := .str "postgres", aSearchColumns := .arr [.str "name", .str "email"] }
    (.obj [("search", .obj [("value", .str "ann")])])
    [.str "name", .str "email"] (.str "ann") rfl (by simp) rfl

/-- Builder configuration for the C5 scenario. -/
def c5Self : Self := { sTableName := .str "t" }

/-- A well-formed request on which `buildQuery` completes. -/
def c5Req : JSVal := .obj
  [("draw", .str "3"),
   ("search", .obj [("value", .str "")]),
   ("columns", .arr [.obj [("name", .str "age"), ("searchable", .str "false"),
                           ("orderable", .str "true"), ("search", .obj [("value", .str "")])]]),
   ("order", .arr [.obj [("column", .num 0), ("dir", .str "asc")]]),
   ("start", .num 0), ("length", .num 10)]

/-- C5 (counterexample): `buildQuery` does not leave the instance state
unchanged — after the call the instance's `oRequestQuery` field holds the
supplied request (source line 239), which it did not before. -/
theorem C5_buildQuery_mutates_state :
  (buildQuery c5Self c5Req).toOption.map (fun out => out.1.oRequestQuery) = some c5Req
    ∧ c5Self.oRequestQuery ≠ c5Req := by
  refine ⟨rfl, ?_⟩
  simp [c5Self, c5Req]

/-- C5 (amended): on an object-typed request, `buildQuery`'s only state
change is storing that request in `oRequestQuery` (overwriting any
previously stored one; non-object requests leave the state unchanged);
`parseResponse` depends on the instance state exactly through that stored
field, which it reads to echo `draw` — so a mutable field does bridge
`buildQuery` to a later `parseResponse` (last conjunct: two states that
differ only in the stored request produce different responses). -/
theorem C5_state_update :
  (∀ (self : Self) (requestQuery : JSVal) (out : Self × Queries),
      buildQuery self requestQuery = .ok out →
      out.1 = (if jsTypeof requestQuery = "object"
               then { self with oRequestQuery := requestQuery } else self))
    ∧ (∀ (s1 s2 : Self) (queryResult : JSVal), s1.oRequestQuery = s2.oRequestQuery →
        parseResponse s1 queryResult = parseResponse s2 queryResult)
    ∧ parseResponse { oRequestQuery := .obj [("draw", .str "9")] } .null ≠
        parseResponse ({} : Self) .null := by
  refine ⟨?_, ?_, ?_⟩
  · intro self rq out h
    unfold buildQuery at h
    split at h
    · next hne =>
      injection h with h2
      rw [← h2, if_neg hne]
    · next hobj =>
      obtain ⟨qs, hb, hout⟩ := mapOk h
      rw [← hout, if_pos (not_not.mp hobj)]
  · intro s1 s2 qr h
    unfold parseResponse
    rw [h]
  · intro h
    have hd := congrArg DtResponse.draw h
    rw [show (parseResponse { oRequestQuery := .obj [("draw", .str "9")] } .null).draw
          = JSVal.num 9 from rfl,
        show (parseResponse ({} : Self) .null).draw = JSVal.num 0 from rfl] at hd
    simp at hd

/-- The output pair of `buildQuery` at the C5 witness input. -/
def c5wOut : Self × Queries := (buildQuery c5Self c5Req).toOption.getD (c5Self, {})

/-- C5 (witness): the state-update characterization applied at the
concrete configuration/request pair. -/
theorem C5_state_update_witness :
  c5wOut.1 = (if jsTypeof c5Req = "object"
              then { c5Self with oRequestQuery := c5Req } else c5Self) :=
  C5_state_update.1 c5Self c5Req c5wOut rfl

/-- The request of C7's worked example: `{start: 10, length: 20}`. -/
def c7Req : JSVal := .obj [("start", .num 10), ("length", .num 20)]

/-- C7: `buildLimitPartial` returns `""` on the oracle dialect; on other
dialects a non-empty clause is emitted only when `request.start` parses as
a non-negative integer, and then a negative `length` yields the single
space while otherwise postgres yields `OFFSET start LIMIT len` and
mysql/default yields `LIMIT start, len`, with `len` the parsed length when
positive and the fixed default (100) otherwise; the worked example
`{start: 10, length: 20}` is the last two conjuncts. -/
theorem C7_limit_clause :
  (∀ (self : Self) (requestQuery : JSVal), isStrEq self.dbType "oracle" = true →
      buildLimitPart self requestQuery = "")
    ∧ (∀ (self : Self) (requestQuery : JSVal), buildLimitPart self requestQuery ≠ "" →
        ∃ s : Int, parseIntJS (getOwn requestQuery "start") = some s ∧ 0 ≤ s)
    ∧ (∀ (self : Self) (requestQuery : JSVal) (s : Int),
        truthy requestQuery = true → isStrEq self.dbType "oracle" = false →
        parseIntJS (getOwn requestQuery "start") = some s → 0 ≤ s →
        buildLimitPart self requestQuery =
          if jsLtZero (getOwn requestQuery "length") then " "
          else (if isStrEq self.dbType "postgres" then " OFFSET " ++ toString s ++ " LIMIT "
                else " LIMIT " ++ toString s ++ ", ")
            ++ (match parseIntJS (getOwn requestQuery "length") with
                | some len => if 0 < len then toString len else toString DEFAULT_LIMIT
                | none => toString DEFAULT_LIMIT))
    ∧ toString DEFAULT_LIMIT = "100"
    ∧ buildLimitPart { dbType := .str "postgres" } c7Req = " OFFSET 10 LIMIT 20"
    ∧ buildLimitPart { dbType := .str "mysql" } c7Req = " LIMIT 10, 20" := by
  refine ⟨?_, ?_, ?_, rfl, rfl, rfl⟩
  · intro self rq h
    simp [buildLimitPart, h]
  · intro self rq hne
    unfold buildLimitPart at hne
    split at hne
    · split at hne
      · next s heq =>
        split at hne
        · next h0 => exact ⟨s, heq, h0⟩
        · exact absurd rfl hne
      · exact absurd rfl hne
    · exact absurd rfl hne
  · intro self rq s ht hdb hs hs0
    have hu : isUndefinedV (getOwn rq "start") = false := by
      cases hgo : getOwn rq "start" with
      | undefined =>
        rw [hgo] at hs
        have hnone : parseIntJS JSVal.undefined = none := rfl
        rw [hnone] at hs
        exact Option.noConfusion hs
      | null => rfl
      | bool b => rfl
      | num n => rfl
      | nan => rfl
      | str t => rfl
      | date iso => rfl
      | arr xs => rfl
      | obj fs => rfl
    simp [buildLimitPart, ht, hu, hdb, hs, hs0]

/-- C7 (witness): the characterization applied on the oracle dialect. -/
theorem C7_limit_clause_witness :
  buildLimitPart { dbType := .str "oracle" } c7Req = "" :=
  C7_limit_clause.1 { dbType := .str "oracle" } c7Req rfl

/-- Decomposition of a successful `buildQueriesBody` run: the select field
is the composed partial statements passed through the Oracle wrapping. -/
theorem buildQueriesBody_select (self : Self) (rq : JSVal) (qs : Queries)
    (h : buildQueriesBody self rq = .ok qs) :
    ∃ w o : String,
      buildWherePart self rq = .ok w
      ∧ buildOrderingPart self rq = .ok o
      ∧ qs.select = .str (oracleWrap self rq
          (buildSelectPart self ++ w ++ o ++ buildLimitPart self rq)) := by
  unfold buildQueriesBody at h
  obtain ⟨rawSearch, hraw, h⟩ := bindOk h
  obtain ⟨rt, hrt, h⟩ := bindOk h
  obtain ⟨rf, hrf, h⟩ := bindOk h
  obtain ⟨w, hw, h⟩ := bindOk h
  obtain ⟨o, ho, h⟩ := bindOk h
  refine ⟨w, o, hw, ho, ?_⟩
  have h2 := Except.ok.inj h
  rw [← h2]

/-- `buildSelectPartial` always begins with `SELECT`. -/
theorem buildSelectPart_starts (self : Self) :
    ∃ t : String, buildSelectPart self = "SELECT" ++ t := by
  refine ⟨" " ++ (if truthy self.sSelectSql then toStringJS self.sSelectSql else "*")
      ++ (" FROM "
          ++ (if truthy self.sFromSql then toStringJS self.sFromSql
              else toStringJS self.sTableName)), ?_⟩
  unfold buildSelectPart
  simp only [← String.append_assoc]
  rfl

/-- The Oracle wrapping preserves a leading `SELECT` (it either returns
its argument or a string that itself begins with `SELECT`). -/
theorem oracleWrap_starts (self : Self) (rq : JSVal) (q t : String)
    (hq : q = "SELECT" ++ t) : ∃ r : String, oracleWrap self rq q = "SELECT" ++ r := by
  unfold oracleWrap
  split
  · split
    · rename_i len start hlen hstart
      split
      · refine ⟨" * FROM (SELECT a.*, ROWNUM rnum FROM (" ++ q ++ ") " ++ "a)"
            ++ " WHERE rnum BETWEEN " ++ toString (start + 1) ++ " AND "
            ++ toString (start + len), ?_⟩
        simp only [← String.append_assoc]
        rfl
      · exact ⟨t, hq⟩
    · exact ⟨t, hq⟩
  · exact ⟨t, hq⟩

/-- Builder configuration for the C9 scenarios. -/
def c9Self : Self := { sTableName := .str "t" }

/-- C9 (counterexample): for a request value that is not object-typed,
`buildQuery`'s fail-soft path returns `select: null`, which is not a
string at all, let alone one starting with `SELECT`. -/
theorem C9_nonobject_select_null :
  (buildQuery c9Self (.str "oops")).toOption.map (fun out => out.2.select) = some JSVal.null
    ∧ jsTypeof JSVal.null ≠ "string" :=
  ⟨rfl, by decide⟩

/-- C9 (amended): whenever `buildQuery` returns on an object-typed
request, the statement set's select field is a string beginning with
`SELECT` (both on the plain composition path and under the Oracle ROWNUM
wrapping). -/
theorem C9_select_starts_with_select_keyword :
  ∀ (self : Self) (requestQuery : JSVal) (out : Self × Queries),
    buildQuery self requestQuery = .ok out → jsTypeof requestQuery = "object" →
    jsTypeof out.2.select = "string"
      ∧ ("SELECT" : String).data.isPrefixOf (toStringJS out.2.select).data = true := by
  intro self rq out h hobj
  unfold buildQuery at h
  rw [if_neg (by simp [hobj])] at h
  obtain ⟨qs, hb, hout⟩ := mapOk h
  obtain ⟨w, o, hw, ho, hsel⟩ := buildQueriesBody_select _ _ _ hb
  obtain ⟨t, ht⟩ := buildSelectPart_starts { self with oRequestQuery := rq }
  have hq : buildSelectPart { self with oRequestQuery := rq } ++ w ++ o
      ++ buildLimitPart { self with oRequestQuery := rq } rq
      = "SELECT" ++ (t ++ w ++ o ++ buildLimitPart { self with oRequestQuery := rq } rq) := by
    rw [ht]
    simp [String.append_assoc]
  obtain ⟨r, hr⟩ := oracleWrap_starts { self with oRequestQuery := rq } rq _ _ hq
  rw [← hout]
  rw [hsel, hr]
  refine ⟨rfl, ?_⟩
  rw [show toStringJS (.str ("SELECT" ++ r)) = "SELECT" ++ r from rfl]
  rw [String.data_append]
  exact List.isPrefixOf_iff_prefix.mpr (List.prefix_append _ _)

/-- Request for the C9 witness. -/
def c9wReq : JSVal := .obj
  [("search", .obj [("value", .str "")]),
   ("columns", .arr [.obj [("name", .str "age"), ("searchable", .str "false"),
                           ("orderable", .str "false"), ("search", .obj [("value", .str "")])]]),
   ("order", .arr [.obj [("column", .num 0), ("dir", .str "asc")]]),
   ("start", .num 0), ("length", .num 5)]

/-- The output pair of `buildQuery` at the C9 witness input. -/
def c9wOut : Self × Queries := (buildQuery c9Self c9wReq).toOption.getD (c9Self, {})

/-- C9 (witness): the prefix property applied at a concrete
configuration/request pair. -/
theorem C9_select_starts_with_select_keyword_witness :
  jsTypeof c9wOut.2.select = "string"
    ∧ ("SELECT" : String).data.isPrefixOf (toStringJS c9wOut.2.select).data = true :=
  C9_select_starts_with_select_keyword c9Self c9wReq c9wOut rfl rfl

/-- C8: on the oracle dialect, when the request's `start` and `length`
both parse as non-negative integers and `buildQuery` returns a statement
set, its select statement is exactly the ROWNUM wrapping
`SELECT * FROM (SELECT a.*, ROWNUM rnum FROM (<inner select>) a) WHERE
rnum BETWEEN <start+1> AND <start+length>` around the composed inner
select (select partial + WHERE + ORDER + the limit partial, which is empty
for oracle). -/
theorem C8_oracle_rownum_wrap :
  ∀ (self : Self) (requestQuery : JSVal) (out : Self × Queries) (s l : Int)
    (whereSql orderSql : String),
    isStrEq self.dbType "oracle" = true →
    jsTypeof requestQuery = "object" →
    buildQuery self requestQuery = .ok out →
    buildWherePart { self with oRequestQuery := requestQuery } requestQuery = .ok whereSql →
    buildOrderingPart { self with oRequestQuery := requestQuery } requestQuery = .ok orderSql →
    parseIntJS (getOwn requestQuery "start") = some s → 0 ≤ s →
    parseIntJS (getOwn requestQuery "length") = some l → 0 ≤ l →
    out.2.select = .str ("SELECT * FROM (SELECT a.*, ROWNUM rnum FROM ("
        ++ (buildSelectPart { self with oRequestQuery := requestQuery }
            ++ whereSql ++ orderSql
            ++ buildLimitPart { self with oRequestQuery := requestQuery } requestQuery)
        ++ ") " ++ "a)" ++ " WHERE rnum BETWEEN "
        ++ toString (s + 1) ++ " AND " ++ toString (s + l)) := by
  intro self rq out s l whereSql orderSql hdb hobj h hwq hoq hs hs0 hl hl0
  unfold buildQuery at h
  rw [if_neg (by simp [hobj])] at h
  obtain ⟨qs, hb, hout⟩ := mapOk h
  obtain ⟨w, o, hw, ho, hsel⟩ := buildQueriesBody_select _ _ _ hb
  rw [hw] at hwq
  rw [ho] at hoq
  have hw2 : w = whereSql := Except.ok.inj hwq
  have ho2 : o = orderSql := Except.ok.inj hoq
  subst hw2
  subst ho2
  rw [← hout, hsel]
  have hdb2 : isStrEq ({ self with oRequestQuery := rq }).dbType "oracle" = true := hdb
  unfold oracleWrap
  rw [if_pos hdb2, hl, hs]
  dsimp only
  rw [if_pos ⟨hl0, hs0⟩]

/-- Builder configuration for the C8 witness (oracle dialect). -/
def c8Self : Self := { sTableName := .str "t", dbType := .str "oracle" }

/-- Request for the C8 witness: `start=0, length=10` (the claim's worked
example, constraining `rnum BETWEEN 1 AND 10`). -/
def c8Req : JSVal := .obj
  [("search", .obj [("value", .str "")]),
   ("columns", .arr [.obj [("name", .str "age"), ("searchable", .str "false"),
                           ("orderable", .str "true"), ("search", .obj [("value", .str "")])]]),
   ("order", .arr [.obj [("column", .num 0), ("dir", .str "asc")]]),
   ("start", .num 0), ("length", .num 10)]

/-- The output pair of `buildQuery` at the C8 witness input. -/
def c8Out : Self × Queries := (buildQuery c8Self c8Req).toOption.getD (c8Self, {})

/-- C8 (witness): the wrap characterization applied at the claim's worked
example; the bounds render as `BETWEEN 1 AND 10`. -/
theorem C8_oracle_rownum_wrap_witness :
  c8Out.2.select = .str ("SELECT * FROM (SELECT a.*, ROWNUM rnum FROM ("
      ++ (buildSelectPart { c8Self with oRequestQuery := c8Req }
          ++ "" ++ " ORDER BY age asc"
          ++ buildLimitPart { c8Self with oRequestQuery := c8Req } c8Req)
      ++ ") " ++ "a)" ++ " WHERE rnum BETWEEN "
      ++ toString ((0 : Int) + 1) ++ " AND " ++ toString ((0 : Int) + 10)) :=
  C8_oracle_rownum_wrap c8Self c8Req c8Out 0 10 "" " ORDER BY age asc"
    rfl rfl rfl rfl rfl rfl (by decide) rfl (by decide)

end Datatable
